import Mathlib

/-!
# Azure SDK for C++: WebSocket frames and facade, shared-key credential, connection pool

A shallow embedding of

* `sdk/core/azure-core/src/http/websockets/websockets.cpp`
  (the `WebSocket` facade and the four narrowing accessors of `WebSocketFrame`),
* `sdk/storage/azure-storage-common/inc/azure/storage/common/storage_credential.hpp`
  (`StorageSharedKeyCredential`),
* `sdk/core/azure-core/test/ut/azure_libcurl_core_main.cpp`
  (the unit test `globalCleanUp`).

Conventions.  A C++ member function that may throw and may write its object is
a function returning the pair of its outcome (`Except`) and the object after
the call, so that a write made before a `throw` is not lost.  A
`std::shared_ptr<T>` is an `Option T`, the null pointer being `none`.  A
`std::string` and a `std::vector<uint8_t>` are lists of bytes.
-/

/-- Contents of a `std::string` or of a `std::vector<uint8_t>`: a sequence of bytes. -/
abbrev Bytes := List (Fin 256)

namespace WebSockets

/-- Modelled from the spec: the enumeration `WebSocketFrameType` is declared in
`websockets.hpp`, which is not among the sources.  The four enumerators the
code names are kept by name; `Other tag` stands for every further enumerator
the declaration may list (ping, continuation, unknown). -/
inductive WebSocketFrameType where
  | TextFrameReceived
  | BinaryFrameReceived
  | PeerClosedReceived
  | PongReceived
  | Other (tag : Nat)
  deriving DecidableEq, Repr

/-- Modelled from the spec: the frame classes are declared in `websockets.hpp`,
which is not among the sources.  The code reads the member `FrameType`; the
spec gives every frame payload bytes (or text) and, for a peer close, a status
code and a reason string.  The code calls `shared_from_this()` on the frame
seen as its derived class, so each derived class carries the weak pointer of
`std::enable_shared_from_this`: `ownedByShared` says whether that pointer is
set, that is, whether the object is owned by a `std::shared_ptr` of its
derived class. -/
structure WebSocketFrame where
  FrameType : WebSocketFrameType
  Text : Bytes
  Data : Bytes
  RemoteStatusCode : Nat
  RemoteCloseReason : Bytes
  ownedByShared : Bool
  deriving DecidableEq, Repr

/-- The exceptions the accessors can throw: `std::logic_error`, with the text
passed to its constructor, and the `std::bad_weak_ptr` of the standard
library. -/
inductive Exception where
  | logic_error (what : String)
  | bad_weak_ptr
  deriving DecidableEq, Repr

/-- The call `static_cast<Derived*>(this)->shared_from_this()` of the standard
library: a new owning pointer to the very same object when the object is
owned by a `std::shared_ptr` of the derived class, and `std::bad_weak_ptr`
when it is not.  It is never the null pointer. -/
def WebSocketFrame.shared_from_this (f : WebSocketFrame) :
    Except Exception (Option WebSocketFrame) :=
  if f.ownedByShared then Except.ok (some f) else Except.error Exception.bad_weak_ptr

/-- `WebSocketFrame::AsTextFrame` (websockets.cpp, lines 72-79): the outcome
and the frame after the call. -/
def WebSocketFrame.AsTextFrame (f : WebSocketFrame) :
    Except Exception (Option WebSocketFrame) × WebSocketFrame :=
  if f.FrameType ≠ WebSocketFrameType.TextFrameReceived then
    (Except.error (Exception.logic_error "Cannot cast to TextFrameReceived."), f)
  else
    (f.shared_from_this, f)

/-- `WebSocketFrame::AsBinaryFrame` (websockets.cpp, lines 81-88): the outcome
and the frame after the call. -/
def WebSocketFrame.AsBinaryFrame (f : WebSocketFrame) :
    Except Exception (Option WebSocketFrame) × WebSocketFrame :=
  if f.FrameType ≠ WebSocketFrameType.BinaryFrameReceived then
    (Except.error (Exception.logic_error "Cannot cast to BinaryFrameReceived."), f)
  else
    (f.shared_from_this, f)

/-- `WebSocketFrame::AsPeerCloseFrame` (websockets.cpp, lines 90-97): the
outcome and the frame after the call. -/
def WebSocketFrame.AsPeerCloseFrame (f : WebSocketFrame) :
    Except Exception (Option WebSocketFrame) × WebSocketFrame :=
  if f.FrameType ≠ WebSocketFrameType.PeerClosedReceived then
    (Except.error (Exception.logic_error "Cannot cast to PeerClose."), f)
  else
    (f.shared_from_this, f)

/-- `WebSocketFrame::AsPongFrame` (websockets.cpp, lines 98-105): the outcome
and the frame after the call. -/
def WebSocketFrame.AsPongFrame (f : WebSocketFrame) :
    Except Exception (Option WebSocketFrame) × WebSocketFrame :=
  if f.FrameType ≠ WebSocketFrameType.PongReceived then
    (Except.error (Exception.logic_error "Cannot cast to PongReceived."), f)
  else
    (f.shared_from_this, f)

/-- A call threw: its outcome is an exception. -/
def Threw {ε α : Type} (r : Except ε α) : Prop :=
  ∃ e, r = Except.error e

/-- A call threw `std::logic_error`. -/
def ThrewLogicError {α : Type} (r : Except Exception α) : Prop :=
  ∃ what, r = Except.error (Exception.logic_error what)

/-- How many of the four narrowing accessors return normally on `f`. -/
def successCount (f : WebSocketFrame) : Nat :=
  (if f.AsTextFrame.1.toBool then 1 else 0)
    + (if f.AsBinaryFrame.1.toBool then 1 else 0)
    + (if f.AsPeerCloseFrame.1.toBool then 1 else 0)
    + (if f.AsPongFrame.1.toBool then 1 else 0)

/-- The four narrowing accessors of `WebSocketFrame`. -/
inductive Accessor where
  | AsTextFrame
  | AsBinaryFrame
  | AsPeerCloseFrame
  | AsPongFrame
  deriving DecidableEq, Repr

/-- The kind an accessor narrows to: the enumerator its `if` compares
`FrameType` with. -/
def Accessor.kind : Accessor → WebSocketFrameType
  | Accessor.AsTextFrame => WebSocketFrameType.TextFrameReceived
  | Accessor.AsBinaryFrame => WebSocketFrameType.BinaryFrameReceived
  | Accessor.AsPeerCloseFrame => WebSocketFrameType.PeerClosedReceived
  | Accessor.AsPongFrame => WebSocketFrameType.PongReceived

/-- The call of an accessor on a frame: the outcome and the frame after the
call. -/
def Accessor.apply :
    Accessor → WebSocketFrame → Except Exception (Option WebSocketFrame) × WebSocketFrame
  | Accessor.AsTextFrame, f => f.AsTextFrame
  | Accessor.AsBinaryFrame, f => f.AsBinaryFrame
  | Accessor.AsPeerCloseFrame, f => f.AsPeerCloseFrame
  | Accessor.AsPongFrame, f => f.AsPongFrame

/-- What a caller observes of a call without looking at the frame returned:
normal return, or the exception thrown. -/
def outcome {ε α : Type} (r : Except ε α) : Except ε Unit :=
  r.map (fun _ => ())

/-- A text frame with payload "hi" that no `std::shared_ptr` owns. -/
def strayTextFrame : WebSocketFrame :=
  { FrameType := WebSocketFrameType.TextFrameReceived, Text := [104, 105], Data := [],
    RemoteStatusCode := 0, RemoteCloseReason := [], ownedByShared := false }

/-- A binary frame with two bytes of data that no `std::shared_ptr` owns. -/
def strayBinaryFrame : WebSocketFrame :=
  { FrameType := WebSocketFrameType.BinaryFrameReceived, Text := [], Data := [1, 2],
    RemoteStatusCode := 0, RemoteCloseReason := [], ownedByShared := false }

/-- A pong frame with two bytes of data, owned by a `std::shared_ptr` or not. -/
def pongFrame (owned : Bool) : WebSocketFrame :=
  { FrameType := WebSocketFrameType.PongReceived, Text := [], Data := [1, 2],
    RemoteStatusCode := 0, RemoteCloseReason := [], ownedByShared := owned }

/-- A peer close frame with status 1000 and reason "ok", owned by a
`std::shared_ptr`. -/
def ownedPeerCloseFrame : WebSocketFrame :=
  { FrameType := WebSocketFrameType.PeerClosedReceived, Text := [], Data := [],
    RemoteStatusCode := 1000, RemoteCloseReason := [111, 107], ownedByShared := true }

/-! ## The `WebSocket` facade (websockets.cpp, lines 9-70) -/

/-- The class `_detail::WebSocketImplementation` is declared in
`websocketsimpl.hpp`, which is not among the sources; the facade only calls its
member functions.  It is taken as a parameter: `σ` is the implementation
object, `ε` the exceptions it throws, `Ctx` is `Azure::Core::Context`.  The two
overloads of `Close` and of `SendFrame` get distinct names. -/
structure WebSocketImplementation (σ ε Ctx : Type) where
  Open : Ctx → σ → Except ε Unit × σ
  Close : Ctx → σ → Except ε Unit × σ
  CloseWithStatus : Fin 65536 → Bytes → Ctx → σ → Except ε Unit × σ
  SendFrameText : Bytes → Bool → Ctx → σ → Except ε Unit × σ
  SendFrameBinary : Bytes → Bool → Ctx → σ → Except ε Unit × σ
  ReceiveFrame : Ctx → σ → Except ε (Option WebSocketFrame) × σ
  SendPing : Bytes → Ctx → σ → Except ε Unit × σ
  AddHeader : Bytes → Bytes → σ → Except ε Unit × σ
  GetChosenProtocol : σ → Except ε Bytes × σ
  IsOpen : σ → Except ε Bool × σ

/-- The class `WebSocket`: its only member is the owning pointer
`m_socketImplementation`. -/
structure WebSocket (σ : Type) where
  m_socketImplementation : σ

section Facade

variable {σ ε Ctx α : Type}

/-- The expression `m_socketImplementation->member(args)`: the member function
runs on the implementation object and the facade keeps pointing to it. -/
def WebSocket.arrow (ws : WebSocket σ) (member : σ → Except ε α × σ) :
    Except ε α × WebSocket σ :=
  ((member ws.m_socketImplementation).1,
    { m_socketImplementation := (member ws.m_socketImplementation).2 })

/-- `WebSocket::Open` (lines 17-20). -/
def WebSocket.Open (impl : WebSocketImplementation σ ε Ctx) (ws : WebSocket σ)
    (context : Ctx) : Except ε Unit × WebSocket σ :=
  ws.arrow (impl.Open context)

/-- `WebSocket::Close(context)` (lines 21-24). -/
def WebSocket.Close (impl : WebSocketImplementation σ ε Ctx) (ws : WebSocket σ)
    (context : Ctx) : Except ε Unit × WebSocket σ :=
  ws.arrow (impl.Close context)

/-- `WebSocket::Close(closeStatus, closeReason, context)` (lines 25-31). -/
def WebSocket.CloseWithStatus (impl : WebSocketImplementation σ ε Ctx) (ws : WebSocket σ)
    (closeStatus : Fin 65536) (closeReason : Bytes) (context : Ctx) :
    Except ε Unit × WebSocket σ :=
  ws.arrow (impl.CloseWithStatus closeStatus closeReason context)

/-- `WebSocket::SendFrame(textFrame, isFinalFrame, context)` (lines 33-39). -/
def WebSocket.SendFrameText (impl : WebSocketImplementation σ ε Ctx) (ws : WebSocket σ)
    (textFrame : Bytes) (isFinalFrame : Bool) (context : Ctx) :
    Except ε Unit × WebSocket σ :=
  ws.arrow (impl.SendFrameText textFrame isFinalFrame context)

/-- `WebSocket::SendFrame(binaryFrame, isFinalFrame, context)` (lines 41-47). -/
def WebSocket.SendFrameBinary (impl : WebSocketImplementation σ ε Ctx) (ws : WebSocket σ)
    (binaryFrame : Bytes) (isFinalFrame : Bool) (context : Ctx) :
    Except ε Unit × WebSocket σ :=
  ws.arrow (impl.SendFrameBinary binaryFrame isFinalFrame context)

/-- `WebSocket::ReceiveFrame` (lines 49-52). -/
def WebSocket.ReceiveFrame (impl : WebSocketImplementation σ ε Ctx) (ws : WebSocket σ)
    (context : Ctx) : Except ε (Option WebSocketFrame) × WebSocket σ :=
  ws.arrow (impl.ReceiveFrame context)

/-- `WebSocket::SendPing` (lines 54-59). -/
def WebSocket.SendPing (impl : WebSocketImplementation σ ε Ctx) (ws : WebSocket σ)
    (pingData : Bytes) (context : Ctx) : Except ε Unit × WebSocket σ :=
  ws.arrow (impl.SendPing pingData context)

/-- `WebSocket::AddHeader` (lines 61-64). -/
def WebSocket.AddHeader (impl : WebSocketImplementation σ ε Ctx) (ws : WebSocket σ)
    (headerName headerValue : Bytes) : Except ε Unit × WebSocket σ :=
  ws.arrow (impl.AddHeader headerName headerValue)

/-- `WebSocket::GetChosenProtocol` (lines 65-68). -/
def WebSocket.GetChosenProtocol (impl : WebSocketImplementation σ ε Ctx) (ws : WebSocket σ) :
    Except ε Bytes × WebSocket σ :=
  ws.arrow impl.GetChosenProtocol

/-- `WebSocket::IsOpen` (line 70). -/
def WebSocket.IsOpen (impl : WebSocketImplementation σ ε Ctx) (ws : WebSocket σ) :
    Except ε Bool × WebSocket σ :=
  ws.arrow impl.IsOpen

/-- One call of a public operation, with its arguments in the order of the
C++ parameter list. -/
inductive Call (Ctx : Type) where
  | Open (context : Ctx)
  | Close (context : Ctx)
  | CloseWithStatus (closeStatus : Fin 65536) (closeReason : Bytes) (context : Ctx)
  | SendFrameText (textFrame : Bytes) (isFinalFrame : Bool) (context : Ctx)
  | SendFrameBinary (binaryFrame : Bytes) (isFinalFrame : Bool) (context : Ctx)
  | ReceiveFrame (context : Ctx)
  | SendPing (pingData : Bytes) (context : Ctx)
  | AddHeader (headerName headerValue : Bytes)
  | GetChosenProtocol
  | IsOpen

/-- What a call hands back: nothing (`void`), a frame pointer, a protocol
string or a flag. -/
inductive Reply where
  | done
  | frame (p : Option WebSocketFrame)
  | protocol (s : Bytes)
  | flag (b : Bool)
  deriving DecidableEq, Repr

/-- The outcome of a member function with its value stored as a `Reply`. -/
def tagged {β : Type} (wrap : α → Reply) (r : Except ε α × β) : Except ε Reply × β :=
  (r.1.map wrap, r.2)

/-- A call made on the implementation object. -/
def WebSocketImplementation.invoke (impl : WebSocketImplementation σ ε Ctx)
    (c : Call Ctx) (s : σ) : Except ε Reply × σ :=
  match c with
  | Call.Open context => tagged (fun _ => Reply.done) (impl.Open context s)
  | Call.Close context => tagged (fun _ => Reply.done) (impl.Close context s)
  | Call.CloseWithStatus st rs context =>
      tagged (fun _ => Reply.done) (impl.CloseWithStatus st rs context s)
  | Call.SendFrameText t fin context =>
      tagged (fun _ => Reply.done) (impl.SendFrameText t fin context s)
  | Call.SendFrameBinary b fin context =>
      tagged (fun _ => Reply.done) (impl.SendFrameBinary b fin context s)
  | Call.ReceiveFrame context => tagged Reply.frame (impl.ReceiveFrame context s)
  | Call.SendPing d context => tagged (fun _ => Reply.done) (impl.SendPing d context s)
  | Call.AddHeader n v => tagged (fun _ => Reply.done) (impl.AddHeader n v s)
  | Call.GetChosenProtocol => tagged Reply.protocol (impl.GetChosenProtocol s)
  | Call.IsOpen => tagged Reply.flag (impl.IsOpen s)

/-- The same call made on the facade: each case is the facade's member
function of that name. -/
def WebSocket.invoke (impl : WebSocketImplementation σ ε Ctx)
    (c : Call Ctx) (ws : WebSocket σ) : Except ε Reply × WebSocket σ :=
  match c with
  | Call.Open context => tagged (fun _ => Reply.done) (ws.Open impl context)
  | Call.Close context => tagged (fun _ => Reply.done) (ws.Close impl context)
  | Call.CloseWithStatus st rs context =>
      tagged (fun _ => Reply.done) (ws.CloseWithStatus impl st rs context)
  | Call.SendFrameText t fin context =>
      tagged (fun _ => Reply.done) (ws.SendFrameText impl t fin context)
  | Call.SendFrameBinary b fin context =>
      tagged (fun _ => Reply.done) (ws.SendFrameBinary impl b fin context)
  | Call.ReceiveFrame context => tagged Reply.frame (ws.ReceiveFrame impl context)
  | Call.SendPing d context => tagged (fun _ => Reply.done) (ws.SendPing impl d context)
  | Call.AddHeader n v => tagged (fun _ => Reply.done) (ws.AddHeader impl n v)
  | Call.GetChosenProtocol => tagged Reply.protocol (ws.GetChosenProtocol impl)
  | Call.IsOpen => tagged Reply.flag (ws.IsOpen impl)

/-- A recorded member function: it appends the call to the log kept beside the
implementation object and then runs. -/
def recorded (c : Call Ctx) (member : σ → Except ε α × σ) (s : σ × List (Call Ctx)) :
    Except ε α × (σ × List (Call Ctx)) :=
  ((member s.1).1, ((member s.1).2, s.2 ++ [c]))

/-- The implementation `impl` with every member function recorded: the log
lists the calls the implementation object has received, oldest first. -/
def WebSocketImplementation.logged (impl : WebSocketImplementation σ ε Ctx) :
    WebSocketImplementation (σ × List (Call Ctx)) ε Ctx where
  Open context := recorded (Call.Open context) (impl.Open context)
  Close context := recorded (Call.Close context) (impl.Close context)
  CloseWithStatus st rs context :=
    recorded (Call.CloseWithStatus st rs context) (impl.CloseWithStatus st rs context)
  SendFrameText t fin context :=
    recorded (Call.SendFrameText t fin context) (impl.SendFrameText t fin context)
  SendFrameBinary b fin context :=
    recorded (Call.SendFrameBinary b fin context) (impl.SendFrameBinary b fin context)
  ReceiveFrame context := recorded (Call.ReceiveFrame context) (impl.ReceiveFrame context)
  SendPing d context := recorded (Call.SendPing d context) (impl.SendPing d context)
  AddHeader n v := recorded (Call.AddHeader n v) (impl.AddHeader n v)
  GetChosenProtocol := recorded Call.GetChosenProtocol impl.GetChosenProtocol
  IsOpen := recorded Call.IsOpen impl.IsOpen

end Facade

/-! ## The state machine behind the facade -/

/-- The error kinds of the spec (section 7). -/
inductive ErrorKind where
  | ConnectFailure
  | ProtocolError
  | InvalidState
  | TypeMismatch
  | Cancelled
  | ConnectionBroken
  deriving DecidableEq, Repr

/-- The states of a WebSocket (spec, section 4.3). -/
inductive SocketState where
  | Created
  | Opening
  | Open
  | Closing
  | Closed
  deriving DecidableEq, Repr

/-- Modelled from the spec: the object of `_detail::WebSocketImplementation`,
whose class (`websocketsimpl.hpp` and its `.cpp`) is not among the sources.  It
holds the state, the custom headers and requested sub-protocols of the upgrade
request, the negotiated sub-protocol and the number of wire operations made so
far. -/
structure SocketImpl where
  state : SocketState
  headers : List (Bytes × Bytes)
  requestedProtocols : List Bytes
  chosenProtocol : Bytes
  wireOps : Nat
  deriving DecidableEq, Repr

/-- Modelled from the spec: the peer and the network, which the spec leaves
outside the transport.  Each field answers one kind of wire operation, given
the context and the number of wire operations made before; `none` or `ok` is
success, an `ErrorKind` is the failure surfaced to the caller.
`openWhileClosing` is the choice the spec leaves to the implementation: whether
`IsOpen()` is true during `Closing`. -/
structure Wire (Ctx : Type) where
  handshake : Ctx → List (Bytes × Bytes) → List Bytes → Except ErrorKind Bytes
  send : Ctx → Nat → Bytes → Bool → Option ErrorKind
  receive : Ctx → Nat → Except ErrorKind WebSocketFrame
  closeHandshake : Ctx → Nat → Fin 65536 → Bytes → Option ErrorKind
  openWhileClosing : Bool

/-- Modelled from the spec: the status a close frame carries when the caller
gives none ("default status if omitted"); 1000 is the normal closure of the
standard framing. -/
def defaultCloseStatus : Fin 65536 := 1000

section StateMachine

variable {Ctx : Type}

/-- Modelled from the spec: construction of the implementation object by
`WebSocket::WebSocket(remoteUrl, options)`; a new socket is `Created`, has no
custom header and no negotiated sub-protocol. -/
def SocketImpl.new (requestedProtocols : List Bytes) : SocketImpl :=
  { state := SocketState.Created, headers := [], requestedProtocols := requestedProtocols,
    chosenProtocol := [], wireOps := 0 }

/-- Modelled from the spec: `Open(context)` of the absent implementation class.
Outside `Created` it is an `InvalidState`; from `Created` the socket is
`Opening` during the upgrade handshake, `Open` with the chosen sub-protocol
recorded when the handshake succeeds, and stays out of `Open` when it fails. -/
def SocketImpl.Open (w : Wire Ctx) (context : Ctx) (s : SocketImpl) :
    Except ErrorKind Unit × SocketImpl :=
  match s.state with
  | SocketState.Created =>
      match w.handshake context s.headers s.requestedProtocols with
      | Except.ok p =>
          (Except.ok (),
            { s with state := SocketState.Open, chosenProtocol := p, wireOps := s.wireOps + 1 })
      | Except.error e =>
          (Except.error e, { s with state := SocketState.Opening, wireOps := s.wireOps + 1 })
  | _ => (Except.error ErrorKind.InvalidState, s)

/-- Modelled from the spec: `Close(status, reason, context)` of the absent
implementation class.  `Open|Closing → Closed` after the close frame and the
close handshake; on an already `Closed` socket it does nothing; in `Created`
and `Opening` it is an `InvalidState`.  The spec does not say where a failed
close handshake leaves the socket: the state is then kept. -/
def SocketImpl.CloseWithStatus (w : Wire Ctx) (closeStatus : Fin 65536) (closeReason : Bytes)
    (context : Ctx) (s : SocketImpl) : Except ErrorKind Unit × SocketImpl :=
  match s.state with
  | SocketState.Closed => (Except.ok (), s)
  | SocketState.Created => (Except.error ErrorKind.InvalidState, s)
  | SocketState.Opening => (Except.error ErrorKind.InvalidState, s)
  | _ =>
      match w.closeHandshake context s.wireOps closeStatus closeReason with
      | none => (Except.ok (), { s with state := SocketState.Closed, wireOps := s.wireOps + 1 })
      | some e => (Except.error e, { s with wireOps := s.wireOps + 1 })

/-- Modelled from the spec: `Close(context)` of the absent implementation
class, the close with the default status and no reason. -/
def SocketImpl.Close (w : Wire Ctx) (context : Ctx) (s : SocketImpl) :
    Except ErrorKind Unit × SocketImpl :=
  s.CloseWithStatus w defaultCloseStatus [] context

/-- Modelled from the spec: the sending of one payload by `SendFrame` or
`SendPing` of the absent implementation class; it is permitted only in `Open`
and fails with `InvalidState` elsewhere.  A failed write keeps the state (the
spec leaves closing to the caller). -/
def SocketImpl.transmit (w : Wire Ctx) (payload : Bytes) (isFinalFrame : Bool) (context : Ctx)
    (s : SocketImpl) : Except ErrorKind Unit × SocketImpl :=
  match s.state with
  | SocketState.Open =>
      match w.send context s.wireOps payload isFinalFrame with
      | none => (Except.ok (), { s with wireOps := s.wireOps + 1 })
      | some e => (Except.error e, { s with wireOps := s.wireOps + 1 })
  | _ => (Except.error ErrorKind.InvalidState, s)

/-- Modelled from the spec: `ReceiveFrame(context)` of the absent
implementation class.  It is permitted in `Open` and tolerated in `Closing`;
elsewhere it is an `InvalidState`.  A peer close frame moves the socket to
`Closing` and is handed to the caller like any other frame. -/
def SocketImpl.ReceiveFrame (w : Wire Ctx) (context : Ctx) (s : SocketImpl) :
    Except ErrorKind (Option WebSocketFrame) × SocketImpl :=
  if s.state = SocketState.Open ∨ s.state = SocketState.Closing then
    match w.receive context s.wireOps with
    | Except.ok f =>
        (Except.ok (some f),
          { s with
            state := if f.FrameType = WebSocketFrameType.PeerClosedReceived
              then SocketState.Closing else s.state,
            wireOps := s.wireOps + 1 })
    | Except.error e => (Except.error e, { s with wireOps := s.wireOps + 1 })
  else
    (Except.error ErrorKind.InvalidState, s)

/-- Modelled from the spec: `AddHeader(name, value)` of the absent
implementation class; permitted only in `Created`, where it appends the header
sent with the upgrade request. -/
def SocketImpl.AddHeader (headerName headerValue : Bytes) (s : SocketImpl) :
    Except ErrorKind Unit × SocketImpl :=
  match s.state with
  | SocketState.Created =>
      (Except.ok (), { s with headers := s.headers ++ [(headerName, headerValue)] })
  | _ => (Except.error ErrorKind.InvalidState, s)

/-- Modelled from the spec: `GetChosenProtocol()` of the absent implementation
class; valid from `Open` onward. -/
def SocketImpl.GetChosenProtocol (s : SocketImpl) : Except ErrorKind Bytes × SocketImpl :=
  match s.state with
  | SocketState.Created => (Except.error ErrorKind.InvalidState, s)
  | SocketState.Opening => (Except.error ErrorKind.InvalidState, s)
  | _ => (Except.ok s.chosenProtocol, s)

/-- Modelled from the spec: `IsOpen()` of the absent implementation class; true
in `Open`, in `Closing` by the implementation's choice, false in every other
state. -/
def SocketImpl.IsOpen (w : Wire Ctx) (s : SocketImpl) : Except ErrorKind Bool × SocketImpl :=
  (Except.ok (decide (s.state = SocketState.Open)
      || (decide (s.state = SocketState.Closing) && w.openWhileClosing)), s)

/-- Modelled from the spec: the member functions of the absent class
`_detail::WebSocketImplementation`, gathered as the object the facade
delegates to. -/
def specImplementation (w : Wire Ctx) : WebSocketImplementation SocketImpl ErrorKind Ctx where
  Open := SocketImpl.Open w
  Close := SocketImpl.Close w
  CloseWithStatus := SocketImpl.CloseWithStatus w
  SendFrameText := SocketImpl.transmit w
  SendFrameBinary := SocketImpl.transmit w
  ReceiveFrame := SocketImpl.ReceiveFrame w
  SendPing d := SocketImpl.transmit w d true
  AddHeader := SocketImpl.AddHeader
  GetChosenProtocol := SocketImpl.GetChosenProtocol
  IsOpen := SocketImpl.IsOpen w

/-- The facade after a sequence of calls, whatever each of them returned. -/
def WebSocket.after (w : Wire Ctx) (ws : WebSocket SocketImpl) :
    List (Call Ctx) → WebSocket SocketImpl
  | [] => ws
  | c :: cs => WebSocket.after w (ws.invoke (specImplementation w) c).2 cs

/-- The call was rejected with `InvalidState` and the socket is not open after it. -/
def RejectedNotOpen {α : Type} (w : Wire Ctx)
    (r : Except ErrorKind α × WebSocket SocketImpl) : Prop :=
  r.1 = Except.error ErrorKind.InvalidState
    ∧ (r.2.IsOpen (specImplementation w)).1 = Except.ok false

/-- The calls of the two overloads of `Close`. -/
def Call.isClose : Call Ctx → Bool
  | Call.Close _ => true
  | Call.CloseWithStatus _ _ _ => true
  | _ => false

/-- A wire on which every operation succeeds: the peer accepts the first
requested sub-protocol and echoes nothing but empty text frames. -/
def quietWire : Wire Unit where
  handshake _ _ ps := Except.ok (ps.headD [])
  send _ _ _ _ := none
  receive _ _ := Except.ok
    { FrameType := WebSocketFrameType.TextFrameReceived, Text := [], Data := [],
      RemoteStatusCode := 0, RemoteCloseReason := [], ownedByShared := true }
  closeHandshake _ _ _ _ := none
  openWhileClosing := false

end StateMachine

end WebSockets

namespace Storage

/-- The class `StorageSharedKeyCredential` (storage_credential.hpp, lines 29-74):
the public constant member `AccountName` and the private `m_accountKey`.  The
member `m_mutex` is taken and released around the body of `Update` and of
`GetAccountKey`; for one caller at a time it has no effect on the values and is
not represented. -/
structure StorageSharedKeyCredential where
  AccountName : Bytes
  m_accountKey : Bytes
  deriving DecidableEq, Repr

/-- The constructor (storage_credential.hpp, lines 38-41): both arguments are
moved into the members. -/
def StorageSharedKeyCredential.new (accountName accountKey : Bytes) :
    StorageSharedKeyCredential :=
  { AccountName := accountName, m_accountKey := accountKey }

/-- `StorageSharedKeyCredential::Update` (storage_credential.hpp, lines 49-53). -/
def StorageSharedKeyCredential.Update (c : StorageSharedKeyCredential)
    (accountKey : Bytes) : StorageSharedKeyCredential :=
  { c with m_accountKey := accountKey }

/-- `StorageSharedKeyCredential::GetAccountKey` (storage_credential.hpp, lines 66-70). -/
def StorageSharedKeyCredential.GetAccountKey (c : StorageSharedKeyCredential) : Bytes :=
  c.m_accountKey

end Storage

namespace Curl

open WebSockets (ErrorKind)

/-- Modelled from the spec: the destination key of a pooled connection
(scheme, host, port, proxy and TLS settings); its declaration is in the absent
`curl_connection_pool.hpp`. -/
structure DestinationKey where
  scheme : Bytes
  host : Bytes
  port : Nat
  proxy : Bytes
  tlsOptions : Bytes
  deriving DecidableEq, Repr

/-- Modelled from the spec: the record of one live connection (absent
`curl_connection.hpp`), with the flag the spec sets when it marks a connection
broken. -/
structure Connection where
  destinationKey : DestinationKey
  socketHandle : Nat
  keepAliveEnabled : Bool
  lastUsedAt : Nat
  broken : Bool
  deriving DecidableEq, Repr

/-- Modelled from the spec: the process-wide pool (absent
`curl_connection_pool.hpp`), held as the sequence of its idle connections, most
recently returned first.  The mapping from a destination key to its idle
connections is read off this sequence (`idle`, `ConnectionPoolIndex`), so that
a connection is never listed under a key other than its own. -/
structure ConnectionPool where
  idleConnections : List Connection
  deriving DecidableEq, Repr

/-- The HTTP method of a request; the test uses `Get`. -/
inductive HttpMethod where
  | Get
  | Head
  | Post
  | Put
  | Delete
  | Patch
  deriving DecidableEq, Repr

/-- Modelled from the spec: the parts of `Azure::Core::Url` that identify the
destination, and the path. -/
structure Url where
  scheme : Bytes
  host : Bytes
  port : Nat
  path : Bytes
  deriving DecidableEq, Repr

/-- Modelled from the spec: `Azure::Core::Http::Request`, a method and a URL. -/
structure Request where
  method : HttpMethod
  url : Url
  deriving DecidableEq, Repr

/-- Modelled from the spec: `CurlTransportOptions` (absent
`curl_transport.hpp`): the keep-alive switch the test reads and the proxy and
TLS settings that are part of the destination key. -/
structure CurlTransportOptions where
  HttpKeepAlive : Bool
  proxy : Bytes
  tlsOptions : Bytes
  deriving DecidableEq, Repr

/-- Modelled from the spec: the sockets and TLS facility below the transport
and the peer.  `connect` yields a raw socket or fails, `exchange` is the
outcome of writing the request and parsing the status line and headers,
`readBody` the outcome of reading the body to its end, `staleAfter` the
staleness threshold, which the spec leaves to the implementer. -/
structure Network (Ctx : Type) where
  connect : DestinationKey → Option Nat
  exchange : Ctx → Request → Nat → Option ErrorKind
  readBody : Ctx → Nat → Except ErrorKind Bytes
  staleAfter : Nat

/-- Modelled from the spec: the session of one exchange (absent
`curl_session.hpp`); it owns the connection it borrowed. -/
structure CurlSession where
  request : Request
  connection : Connection
  deriving DecidableEq, Repr

section Pool

variable {Ctx : Type}

/-- The empty pool of a process that has made no exchange yet. -/
def ConnectionPool.empty : ConnectionPool :=
  { idleConnections := [] }

/-- The idle connections the pool holds for `key`, most recently returned
first. -/
def ConnectionPool.idle (pool : ConnectionPool) (key : DestinationKey) : List Connection :=
  pool.idleConnections.filter (fun c => decide (c.destinationKey = key))

/-- Modelled from the spec: the member `ConnectionPoolIndex` whose `size()` the
test reads: the mapping from each destination key that has an idle connection
to the idle connections of that key. -/
def ConnectionPool.ConnectionPoolIndex (pool : ConnectionPool) :
    List (DestinationKey × List Connection) :=
  (pool.idleConnections.map (fun c => c.destinationKey)).dedup.map
    (fun key => (key, pool.idle key))

/-- The pool with the idle list of `key` replaced by `l`, a list of
connections of that key. -/
def ConnectionPool.setIdle (pool : ConnectionPool) (key : DestinationKey)
    (l : List Connection) : ConnectionPool :=
  { idleConnections :=
      l ++ pool.idleConnections.filter (fun c => !decide (c.destinationKey = key)) }

/-- Modelled from the spec: the destination a request is sent to under the
given options. -/
def destinationOf (req : Request) (options : CurlTransportOptions) : DestinationKey :=
  { scheme := req.url.scheme, host := req.url.host, port := req.url.port,
    proxy := options.proxy, tlsOptions := options.tlsOptions }

/-- Modelled from the spec: an idle connection may be reused when the peer has
not flagged it broken and it is not older than the staleness threshold. -/
def reusable (net : Network Ctx) (now : Nat) (c : Connection) : Bool :=
  !c.broken && decide (now - c.lastUsedAt ≤ net.staleAfter)

/-- Modelled from the spec: `ExtractOrCreateConnection(destination, options)`
of the absent pool class.  A reusable idle connection of the destination is
removed from the idle list and returned, stale and broken ones being
discarded; otherwise a new connection is made by the sockets facility and the
idle list is not touched beyond that discarding. -/
def ConnectionPool.ExtractOrCreateCurlConnection (net : Network Ctx) (now : Nat)
    (req : Request) (options : CurlTransportOptions) (pool : ConnectionPool) :
    Except ErrorKind Connection × ConnectionPool :=
  match (pool.idle (destinationOf req options)).filter (reusable net now) with
  | c :: rest => (Except.ok c, pool.setIdle (destinationOf req options) rest)
  | [] =>
      match net.connect (destinationOf req options) with
      | some h =>
          (Except.ok
            { destinationKey := destinationOf req options, socketHandle := h,
              keepAliveEnabled := options.HttpKeepAlive, lastUsedAt := now, broken := false },
            pool.setIdle (destinationOf req options) [])
      | none =>
          (Except.error ErrorKind.ConnectFailure, pool.setIdle (destinationOf req options) [])

/-- Modelled from the spec: `ReleaseConnection(connection)` of the absent pool
class.  A usable connection with keep-alive enabled is pushed on the front of
the idle list of its destination; any other is closed and discarded. -/
def ConnectionPool.ReleaseConnection (now : Nat) (c : Connection) (pool : ConnectionPool) :
    ConnectionPool :=
  if !c.broken && c.keepAliveEnabled then
    pool.setIdle c.destinationKey
      ({ c with lastUsedAt := now } :: pool.idle c.destinationKey)
  else
    pool

/-- Modelled from the spec: the constructor
`CurlSession(request, connection, keepAlive)` of the absent session class; the
session takes the connection over and records on it whether it may be kept
alive. -/
def CurlSession.new (req : Request) (connection : Connection) (keepAlive : Bool) :
    CurlSession :=
  { request := req, connection := { connection with keepAliveEnabled := keepAlive } }

/-- Modelled from the spec: `Perform(context)` of the absent session class.  A
protocol violation, an I/O failure or a cancellation marks the connection
broken. -/
def CurlSession.Perform (net : Network Ctx) (context : Ctx) (s : CurlSession) :
    Except ErrorKind Unit × CurlSession :=
  match net.exchange context s.request s.connection.socketHandle with
  | none => (Except.ok (), s)
  | some e => (Except.error e, { s with connection := { s.connection with broken := true } })

/-- Modelled from the spec: `ReadToEnd(context)` of the absent session class;
the body is read to its end, a failure marks the connection broken. -/
def CurlSession.ReadToEnd (net : Network Ctx) (context : Ctx) (s : CurlSession) :
    Except ErrorKind Bytes × CurlSession :=
  match net.readBody context s.connection.socketHandle with
  | Except.ok body => (Except.ok body, s)
  | Except.error e =>
      (Except.error e, { s with connection := { s.connection with broken := true } })

/-- Modelled from the spec: the destructor of the absent session class: when
the scope of the session ends, on every exit path, the connection is released
to the pool. -/
def CurlSession.destroy (now : Nat) (s : CurlSession) (pool : ConnectionPool) :
    ConnectionPool :=
  pool.ReleaseConnection now s.connection

/-- The inner block of the test `globalCleanUp`
(azure_libcurl_core_main.cpp, lines 40-51), for any request and options: a
connection is taken from the pool at time `now`, a session performs the
exchange and reads the whole response, and the session is destroyed at time
`later`, at the closing brace or while an exception unwinds the block. -/
def sessionScope (net : Network Ctx) (context : Ctx) (now later : Nat) (req : Request)
    (options : CurlTransportOptions) (pool : ConnectionPool) :
    Except ErrorKind Unit × ConnectionPool :=
  match pool.ExtractOrCreateCurlConnection net now req options with
  | (Except.error e, pool1) => (Except.error e, pool1)
  | (Except.ok connection, pool1) =>
      match (CurlSession.new req connection options.HttpKeepAlive).Perform net context with
      | (Except.error e, session) => (Except.error e, session.destroy later pool1)
      | (Except.ok _, session) =>
          match session.ReadToEnd net context with
          | (Except.error e, session) => (Except.error e, session.destroy later pool1)
          | (Except.ok _, session) => (Except.ok (), session.destroy later pool1)

/-- The request of the test: `GET https://httpbin.org/get`. -/
def testRequest : Request :=
  { method := HttpMethod.Get,
    url :=
      { scheme := [104, 116, 116, 112, 115],
        host := [104, 116, 116, 112, 98, 105, 110, 46, 111, 114, 103],
        port := 443,
        path := [47, 103, 101, 116] } }

/-- The test `globalCleanUp` (azure_libcurl_core_main.cpp, lines 35-57) run on
the process-wide pool `pool`: the value is whether `EXPECT_EQ` finds one entry
in `ConnectionPoolIndex`, or the exception that left the block. -/
def globalCleanUp (net : Network Ctx) (applicationContext : Ctx) (now later : Nat)
    (options : CurlTransportOptions) (pool : ConnectionPool) :
    Except ErrorKind Bool × ConnectionPool :=
  match sessionScope net applicationContext now later testRequest options pool with
  | (Except.error e, pool2) => (Except.error e, pool2)
  | (Except.ok _, pool2) => (Except.ok (decide (pool2.ConnectionPoolIndex.length = 1)), pool2)

end Pool

end Curl

/-! # Theorems -/

namespace WebSockets

/-- The outcome of an accessor on a frame whose kind differs from its own. -/
theorem apply_of_kind_differs (a : Accessor) (f : WebSocketFrame)
    (h : f.FrameType ≠ a.kind) :
    ∃ what, (a.apply f).1 = Except.error (Exception.logic_error what) := by
  cases a <;>
    simp only [Accessor.apply, Accessor.kind, WebSocketFrame.AsTextFrame,
      WebSocketFrame.AsBinaryFrame, WebSocketFrame.AsPeerCloseFrame,
      WebSocketFrame.AsPongFrame] at h ⊢ <;>
    rw [if_pos h] <;> exact ⟨_, rfl⟩

/-- The outcome of an accessor on a frame of its own kind is that of
`shared_from_this()`. -/
theorem apply_of_kind_matches (a : Accessor) (f : WebSocketFrame)
    (h : f.FrameType = a.kind) : (a.apply f).1 = f.shared_from_this := by
  cases a <;>
    simp only [Accessor.apply, Accessor.kind, WebSocketFrame.AsTextFrame,
      WebSocketFrame.AsBinaryFrame, WebSocketFrame.AsPeerCloseFrame,
      WebSocketFrame.AsPongFrame] at h ⊢ <;>
    rw [if_neg (not_not.mpr h)]

/-- No accessor writes a member of the frame. -/
theorem apply_keeps_frame (a : Accessor) (f : WebSocketFrame) : (a.apply f).2 = f := by
  cases a <;>
    simp only [Accessor.apply, WebSocketFrame.AsTextFrame, WebSocketFrame.AsBinaryFrame,
      WebSocketFrame.AsPeerCloseFrame, WebSocketFrame.AsPongFrame] <;>
    split_ifs <;> rfl

/-- An accessor throws `std::logic_error` exactly on a frame of another kind. -/
theorem accessor_kind_decides_logic_error (a : Accessor) (f : WebSocketFrame) :
    ThrewLogicError (a.apply f).1 ↔ f.FrameType ≠ a.kind := by
  by_cases h : f.FrameType = a.kind
  · rw [apply_of_kind_matches a f h]
    cases ho : f.ownedByShared <;>
      simp [ThrewLogicError, WebSocketFrame.shared_from_this, ho, h]
  · obtain ⟨what, hw⟩ := apply_of_kind_differs a f h
    rw [hw]
    simp [ThrewLogicError, h]

/-- C1, as stated, fails: `AsTextFrame` on a text frame that no
`std::shared_ptr` owns fails (with `std::bad_weak_ptr`) although the frame's
kind is the accessor's kind. -/
theorem unowned_matching_frame_fails :
    ¬ (Threw (Accessor.AsTextFrame.apply strayTextFrame).1
        ↔ strayTextFrame.FrameType ≠ Accessor.AsTextFrame.kind) := by
  intro h
  exact h.mp ⟨Exception.bad_weak_ptr, rfl⟩ rfl

/-- C1, amended: for every frame and each of the four narrowing accessors, the
accessor throws `std::logic_error` if and only if the frame's `FrameType`
differs from the accessor's kind; it fails at all if and only if the kind
differs or the frame is not owned by a `std::shared_ptr`; and it never returns
a null pointer. -/
theorem accessor_throws_logic_error_iff_kind_differs (a : Accessor) (f : WebSocketFrame) :
    (ThrewLogicError (a.apply f).1 ↔ f.FrameType ≠ a.kind)
      ∧ (Threw (a.apply f).1 ↔ (f.FrameType ≠ a.kind ∨ f.ownedByShared = false))
      ∧ (a.apply f).1 ≠ Except.ok none := by
  by_cases h : f.FrameType = a.kind
  · rw [apply_of_kind_matches a f h]
    cases ho : f.ownedByShared <;>
      simp [ThrewLogicError, Threw, WebSocketFrame.shared_from_this, ho, h]
  · obtain ⟨what, hw⟩ := apply_of_kind_differs a f h
    rw [hw]
    simp [ThrewLogicError, Threw, h]

/-- C2, as stated, fails: `AsBinaryFrame` on a binary frame that no
`std::shared_ptr` owns does not return the frame, it throws
`std::bad_weak_ptr`. -/
theorem matching_accessor_fails_on_unowned_frame :
    strayBinaryFrame.FrameType = Accessor.AsBinaryFrame.kind
      ∧ (Accessor.AsBinaryFrame.apply strayBinaryFrame).1
          = Except.error Exception.bad_weak_ptr
      ∧ (Accessor.AsBinaryFrame.apply strayBinaryFrame).1
          ≠ Except.ok (some strayBinaryFrame) :=
  ⟨rfl, rfl, fun h => by cases h⟩

/-- C2, amended: when the frame is owned by a `std::shared_ptr` and its kind is
the accessor's kind, the accessor returns normally a pointer to that same
frame, so kind, payload, status code and reason of the result are those of the
frame, and the frame after the call is the frame before it. -/
theorem matching_accessor_returns_same_frame (a : Accessor) (f : WebSocketFrame)
    (h : f.FrameType = a.kind) (ho : f.ownedByShared = true) :
    (a.apply f).1 = Except.ok (some f) ∧ (a.apply f).2 = f := by
  refine ⟨?_, apply_keeps_frame a f⟩
  rw [apply_of_kind_matches a f h]
  simp [WebSocketFrame.shared_from_this, ho]

/-- Witness of C2: `AsPeerCloseFrame` on an owned peer close frame with status
1000 and a two-byte reason. -/
theorem matching_accessor_returns_same_frame_witness :
    ownedPeerCloseFrame.FrameType = Accessor.AsPeerCloseFrame.kind
      ∧ ownedPeerCloseFrame.ownedByShared = true
      ∧ (Accessor.AsPeerCloseFrame.apply ownedPeerCloseFrame).1
          = Except.ok (some ownedPeerCloseFrame)
      ∧ (Accessor.AsPeerCloseFrame.apply ownedPeerCloseFrame).2 = ownedPeerCloseFrame :=
  ⟨rfl, rfl,
    matching_accessor_returns_same_frame Accessor.AsPeerCloseFrame ownedPeerCloseFrame rfl rfl⟩

/-- C8, as stated, fails: two pong frames of the same `FrameType`, one owned by
a `std::shared_ptr` and one not, get different outcomes from `AsPongFrame`. -/
theorem same_kind_frames_differ_in_outcome :
    (pongFrame true).FrameType = (pongFrame false).FrameType
      ∧ outcome (Accessor.AsPongFrame.apply (pongFrame true)).1
          ≠ outcome (Accessor.AsPongFrame.apply (pongFrame false)).1 :=
  ⟨rfl, fun h => by cases h⟩

/-- C8, amended: at most one of the four accessors returns normally on a
frame; a frame whose `FrameType` is none of the four kinds is rejected by every
accessor; what an accessor does on a frame (return, or the exception thrown) is
what it does on any other frame of the same `FrameType` and the same ownership;
and whether it throws `std::logic_error` is the same on any other frame of the
same `FrameType`. -/
theorem accessors_exclusive_and_decided_by_kind_and_ownership (a : Accessor)
    (f g : WebSocketFrame) (tag : Nat) :
    successCount f ≤ 1
      ∧ Threw (a.apply { g with FrameType := WebSocketFrameType.Other tag }).1
      ∧ outcome (a.apply f).1
          = outcome (a.apply
              { g with FrameType := f.FrameType, ownedByShared := f.ownedByShared }).1
      ∧ (ThrewLogicError (a.apply f).1
          ↔ ThrewLogicError (a.apply { g with FrameType := f.FrameType }).1) := by
  refine ⟨?_, ?_, ?_, ?_⟩
  · cases hk : f.FrameType <;>
      simp [successCount, WebSocketFrame.AsTextFrame, WebSocketFrame.AsBinaryFrame,
        WebSocketFrame.AsPeerCloseFrame, WebSocketFrame.AsPongFrame, hk, Except.toBool] <;>
      split <;> simp
  · obtain ⟨what, hw⟩ := apply_of_kind_differs a
      { g with FrameType := WebSocketFrameType.Other tag } (by cases a <;> simp [Accessor.kind])
    exact ⟨_, hw⟩
  · by_cases h : f.FrameType = a.kind
    · have h2 := apply_of_kind_matches a
        { g with FrameType := f.FrameType, ownedByShared := f.ownedByShared } h
      rw [apply_of_kind_matches a f h, h2]
      simp only [WebSocketFrame.shared_from_this]
      cases f.ownedByShared <;> rfl
    · cases a <;>
        simp only [Accessor.apply, Accessor.kind, WebSocketFrame.AsTextFrame,
          WebSocketFrame.AsBinaryFrame, WebSocketFrame.AsPeerCloseFrame,
          WebSocketFrame.AsPongFrame] at h ⊢ <;>
        rw [if_pos h, if_pos h]
  · have h1 := (accessor_kind_decides_logic_error a f)
    have h2 := (accessor_kind_decides_logic_error a { g with FrameType := f.FrameType })
    exact h1.trans h2.symm

/-- C9: every public operation of the facade, run on any implementation with
any arguments, returns what the same-named operation of the implementation
returns or throws what it throws, leaves the implementation object as that
operation leaves it, and the implementation object has received exactly that
one call with those arguments. -/
theorem facade_is_pass_through {σ ε Ctx : Type} (impl : WebSocketImplementation σ ε Ctx)
    (c : Call Ctx) (ws : WebSocket σ) (log : List (Call Ctx)) :
    (ws.invoke impl c).1 = (impl.invoke c ws.m_socketImplementation).1
      ∧ (ws.invoke impl c).2.m_socketImplementation
          = (impl.invoke c ws.m_socketImplementation).2
      ∧ ((WebSocket.invoke impl.logged c
            { m_socketImplementation := (ws.m_socketImplementation, log) }).2
          ).m_socketImplementation.2 = log ++ [c] := by
  cases c <;> exact ⟨rfl, rfl, rfl⟩

/-- A `Closed` socket stays `Closed` under every call. -/
theorem closed_is_absorbing {Ctx : Type} (w : Wire Ctx) (c : Call Ctx)
    (ws : WebSocket SocketImpl) (h : ws.m_socketImplementation.state = SocketState.Closed) :
    (ws.invoke (specImplementation w) c).2.m_socketImplementation.state
      = SocketState.Closed := by
  cases c <;>
    simp [WebSocket.invoke, tagged, WebSocket.arrow, WebSocket.Open, WebSocket.Close,
      WebSocket.CloseWithStatus, WebSocket.SendFrameText, WebSocket.SendFrameBinary,
      WebSocket.ReceiveFrame, WebSocket.SendPing, WebSocket.AddHeader,
      WebSocket.GetChosenProtocol, WebSocket.IsOpen, specImplementation, SocketImpl.Open,
      SocketImpl.Close, SocketImpl.CloseWithStatus, SocketImpl.transmit,
      SocketImpl.ReceiveFrame, SocketImpl.AddHeader, SocketImpl.GetChosenProtocol,
      SocketImpl.IsOpen, h]

/-- A `Closed` socket is still `Closed` after any sequence of calls. -/
theorem closed_after_any_calls {Ctx : Type} (w : Wire Ctx) (cs : List (Call Ctx))
    (ws : WebSocket SocketImpl) (h : ws.m_socketImplementation.state = SocketState.Closed) :
    (ws.after w cs).m_socketImplementation.state = SocketState.Closed := by
  induction cs generalizing ws with
  | nil => exact h
  | cons c cs ih => exact ih _ (closed_is_absorbing w c ws h)

/-- A close with status and reason that returns normally leaves the
implementation object `Closed`. -/
theorem closeWithStatus_returns_closed {Ctx : Type} (w : Wire Ctx) (status : Fin 65536)
    (reason : Bytes) (context : Ctx) (s : SocketImpl)
    (hok : (s.CloseWithStatus w status reason context).1 = Except.ok ()) :
    (s.CloseWithStatus w status reason context).2.state = SocketState.Closed := by
  unfold SocketImpl.CloseWithStatus at hok ⊢
  cases hs : s.state <;> simp only [hs] at hok ⊢ <;>
    first
      | exact hs
      | exact absurd hok (by simp)
      | (cases hw : w.closeHandshake context s.wireOps status reason <;>
          simp only [hw] at hok ⊢; first | rfl | exact absurd hok (by simp))

/-- A call of `Close`, in either overload, that returns normally leaves the
socket `Closed`. -/
theorem close_returns_closed {Ctx : Type} (w : Wire Ctx) (c : Call Ctx)
    (ws : WebSocket SocketImpl) (hc : c.isClose = true)
    (hok : (ws.invoke (specImplementation w) c).1 = Except.ok Reply.done) :
    (ws.invoke (specImplementation w) c).2.m_socketImplementation.state
      = SocketState.Closed := by
  have ok_of : ∀ r : Except ErrorKind Unit,
      r.map (fun _ => Reply.done) = Except.ok Reply.done → r = Except.ok () := by
    intro r hr
    cases r with
    | ok u => rfl
    | error e => simp [Except.map] at hr
  cases c with
  | Close context =>
      exact closeWithStatus_returns_closed w defaultCloseStatus [] context
        ws.m_socketImplementation (ok_of _ hok)
  | CloseWithStatus status reason context =>
      exact closeWithStatus_returns_closed w status reason context
        ws.m_socketImplementation (ok_of _ hok)
  | _ => simp [Call.isClose] at hc

/-- On a `Closed` socket `IsOpen()` returns false and `SendFrame`, with a text
or a binary payload, fails with `InvalidState`. -/
theorem closed_observations {Ctx : Type} (w : Wire Ctx) (ws : WebSocket SocketImpl)
    (payload : Bytes) (isFinalFrame : Bool) (context : Ctx)
    (h : ws.m_socketImplementation.state = SocketState.Closed) :
    (ws.IsOpen (specImplementation w)).1 = Except.ok false
      ∧ (ws.SendFrameText (specImplementation w) payload isFinalFrame context).1
          = Except.error ErrorKind.InvalidState
      ∧ (ws.SendFrameBinary (specImplementation w) payload isFinalFrame context).1
          = Except.error ErrorKind.InvalidState := by
  simp [WebSocket.arrow, WebSocket.IsOpen, WebSocket.SendFrameText,
    WebSocket.SendFrameBinary, specImplementation, SocketImpl.IsOpen,
    SocketImpl.transmit, h]

/-- C3: on a WebSocket in the `Created` state, `SendFrame` with a text or a
binary payload, `ReceiveFrame` and `Close` with or without status and reason
each fail with `InvalidState`, and `IsOpen()` is false afterwards. -/
theorem created_rejects_send_receive_close {Ctx : Type} (w : Wire Ctx)
    (ws : WebSocket SocketImpl) (payload reason : Bytes) (isFinalFrame : Bool)
    (status : Fin 65536) (context : Ctx)
    (h : ws.m_socketImplementation.state = SocketState.Created) :
    RejectedNotOpen w (ws.SendFrameText (specImplementation w) payload isFinalFrame context)
      ∧ RejectedNotOpen w
          (ws.SendFrameBinary (specImplementation w) payload isFinalFrame context)
      ∧ RejectedNotOpen w (ws.ReceiveFrame (specImplementation w) context)
      ∧ RejectedNotOpen w (ws.Close (specImplementation w) context)
      ∧ RejectedNotOpen w
          (ws.CloseWithStatus (specImplementation w) status reason context) := by
  simp [RejectedNotOpen, WebSocket.arrow, WebSocket.Close, WebSocket.CloseWithStatus,
    WebSocket.SendFrameText, WebSocket.SendFrameBinary, WebSocket.ReceiveFrame,
    WebSocket.IsOpen, specImplementation, SocketImpl.Close, SocketImpl.CloseWithStatus,
    SocketImpl.transmit, SocketImpl.ReceiveFrame, SocketImpl.IsOpen, h]

/-- Witness of C3: a newly constructed WebSocket on the quiet wire. -/
theorem created_rejects_send_receive_close_witness :
    (({ m_socketImplementation := SocketImpl.new [] } : WebSocket SocketImpl
        ).m_socketImplementation.state = SocketState.Created)
      ∧ RejectedNotOpen quietWire
          (WebSocket.SendFrameText (specImplementation quietWire)
            { m_socketImplementation := SocketImpl.new [] } [104, 105] true ())
      ∧ RejectedNotOpen quietWire
          (WebSocket.Close (specImplementation quietWire)
            { m_socketImplementation := SocketImpl.new [] } ()) :=
  ⟨rfl,
    (created_rejects_send_receive_close quietWire
      { m_socketImplementation := SocketImpl.new [] } [104, 105] [] true 1000 () rfl).1,
    (created_rejects_send_receive_close quietWire
      { m_socketImplementation := SocketImpl.new [] } [104, 105] [] true 1000 () rfl).2.2.2.1⟩

/-- C4: once a call of `Close`, in either overload, has returned normally, the
socket is `Closed` after every sequence of later calls, `IsOpen()` returns
false there, and `SendFrame` with a text or a binary payload fails there with
`InvalidState`. -/
theorem closed_is_final {Ctx : Type} (w : Wire Ctx) (ws : WebSocket SocketImpl)
    (c : Call Ctx) (later : List (Call Ctx)) (payload : Bytes) (isFinalFrame : Bool)
    (context : Ctx) (hc : c.isClose = true)
    (hok : (ws.invoke (specImplementation w) c).1 = Except.ok Reply.done) :
    ((ws.invoke (specImplementation w) c).2.after w later).m_socketImplementation.state
        = SocketState.Closed
      ∧ (((ws.invoke (specImplementation w) c).2.after w later).IsOpen
          (specImplementation w)).1 = Except.ok false
      ∧ (((ws.invoke (specImplementation w) c).2.after w later).SendFrameText
          (specImplementation w) payload isFinalFrame context).1
          = Except.error ErrorKind.InvalidState
      ∧ (((ws.invoke (specImplementation w) c).2.after w later).SendFrameBinary
          (specImplementation w) payload isFinalFrame context).1
          = Except.error ErrorKind.InvalidState := by
  have hcl := closed_after_any_calls w later _ (close_returns_closed w c ws hc hok)
  exact ⟨hcl, closed_observations w _ payload isFinalFrame context hcl⟩

/-- Witness of C4: a socket opened on the quiet wire is closed; `Open`, a text
`SendFrame` and `ReceiveFrame` are then attempted, and `IsOpen()` is false. -/
theorem closed_is_final_witness :
    (Call.Close () : Call Unit).isClose = true
      ∧ (WebSocket.invoke (specImplementation quietWire) (Call.Close ())
          (WebSocket.Open (specImplementation quietWire)
            { m_socketImplementation := SocketImpl.new [[99]] } ()).2).1
          = Except.ok Reply.done
      ∧ (((WebSocket.invoke (specImplementation quietWire) (Call.Close ())
            (WebSocket.Open (specImplementation quietWire)
              { m_socketImplementation := SocketImpl.new [[99]] } ()).2).2.after quietWire
            [Call.Open (), Call.SendFrameText [104, 105] true (), Call.ReceiveFrame ()]
          ).IsOpen (specImplementation quietWire)).1 = Except.ok false :=
  ⟨rfl, rfl,
    (closed_is_final quietWire
      (WebSocket.Open (specImplementation quietWire)
        { m_socketImplementation := SocketImpl.new [[99]] } ()).2
      (Call.Close ())
      [Call.Open (), Call.SendFrameText [104, 105] true (), Call.ReceiveFrame ()]
      [104, 105] true () rfl rfl).2.1⟩

end WebSockets

namespace Curl

open WebSockets (ErrorKind)

/-- After `setIdle key l`, for a list `l` of connections of `key`, the idle
list of `key` is `l`. -/
theorem idle_setIdle (pool : ConnectionPool) (key : DestinationKey) (l : List Connection)
    (hl : ∀ c ∈ l, c.destinationKey = key) : (pool.setIdle key l).idle key = l := by
  unfold ConnectionPool.setIdle ConnectionPool.idle
  simp only [List.filter_append, List.filter_filter]
  have h1 : l.filter (fun c => decide (c.destinationKey = key)) = l := by
    rw [List.filter_eq_self]
    intro c hc
    simpa using hl c hc
  have h2 : pool.idleConnections.filter
      (fun c => decide (c.destinationKey = key) && !decide (c.destinationKey = key)) = [] := by
    rw [List.filter_eq_nil_iff]
    intro c _
    simp
  rw [h1, h2, List.append_nil]

/-- The connections of the idle list of `key` have the destination key `key`. -/
theorem key_of_idle (pool : ConnectionPool) (key : DestinationKey) (c : Connection)
    (hc : c ∈ pool.idle key) : c.destinationKey = key := by
  unfold ConnectionPool.idle at hc
  simpa using (List.mem_filter.mp hc).2

/-- A connection handed out by the pool belongs to the destination of the
request and is not broken. -/
theorem extracted_connection {Ctx : Type} (net : Network Ctx) (now : Nat) (req : Request)
    (options : CurlTransportOptions) (pool : ConnectionPool) (c : Connection)
    (h : (pool.ExtractOrCreateCurlConnection net now req options).1 = Except.ok c) :
    c.destinationKey = destinationOf req options ∧ c.broken = false := by
  unfold ConnectionPool.ExtractOrCreateCurlConnection at h
  cases hf : (pool.idle (destinationOf req options)).filter (reusable net now) with
  | cons d rest =>
      simp only [hf] at h
      have hd : d = c := by simpa using h
      subst hd
      have hmem : d ∈ (pool.idle (destinationOf req options)).filter (reusable net now) := by
        rw [hf]; exact List.mem_cons_self _ _
      have hm := List.mem_filter.mp hmem
      refine ⟨key_of_idle pool _ d hm.1, ?_⟩
      have hr := hm.2
      simp [reusable] at hr
      exact hr.1
  | nil =>
      simp only [hf] at h
      cases hc : net.connect (destinationOf req options) with
      | none => simp [hc] at h
      | some sock =>
          simp only [hc] at h
          have hd := Except.ok.inj h
          subst hd
          exact ⟨rfl, rfl⟩

/-- When the block returns normally, the pool after it is the pool left by the
extraction with the extracted connection released into it. -/
theorem sessionScope_returns {Ctx : Type} (net : Network Ctx) (context : Ctx)
    (now later : Nat) (req : Request) (options : CurlTransportOptions)
    (pool : ConnectionPool)
    (hok : (sessionScope net context now later req options pool).1 = Except.ok ()) :
    ∃ c, (pool.ExtractOrCreateCurlConnection net now req options).1 = Except.ok c
      ∧ (sessionScope net context now later req options pool).2
          = (pool.ExtractOrCreateCurlConnection net now req options).2.ReleaseConnection later
              { c with keepAliveEnabled := options.HttpKeepAlive } := by
  unfold sessionScope at hok ⊢
  rcases hx : pool.ExtractOrCreateCurlConnection net now req options with ⟨r, pool1⟩
  cases r with
  | error e => simp [hx] at hok
  | ok c =>
      simp only [hx] at hok ⊢
      refine ⟨c, rfl, ?_⟩
      unfold CurlSession.Perform at hok ⊢
      cases hp : net.exchange context (CurlSession.new req c options.HttpKeepAlive).request
          (CurlSession.new req c options.HttpKeepAlive).connection.socketHandle with
      | some e => simp [hp] at hok
      | none =>
          simp only [hp] at hok ⊢
          unfold CurlSession.ReadToEnd at hok ⊢
          cases hb : net.readBody context
              (CurlSession.new req c options.HttpKeepAlive).connection.socketHandle with
          | error e => simp [hb] at hok
          | ok body => rfl

/-- The pool the extraction leaves: the idle list of the destination is
replaced by what is left of its reusable connections, of which there is one
less than `max 1` of their number before. -/
theorem extract_shape {Ctx : Type} (net : Network Ctx) (now : Nat) (req : Request)
    (options : CurlTransportOptions) (pool : ConnectionPool) (c : Connection)
    (hb : (pool.ExtractOrCreateCurlConnection net now req options).1 = Except.ok c) :
    ∃ rest, (∀ d ∈ rest, d.destinationKey = destinationOf req options)
      ∧ (pool.ExtractOrCreateCurlConnection net now req options).2
          = pool.setIdle (destinationOf req options) rest
      ∧ rest.length + 1
          = max 1 ((pool.idle (destinationOf req options)).filter (reusable net now)).length := by
  unfold ConnectionPool.ExtractOrCreateCurlConnection at hb ⊢
  cases hf : (pool.idle (destinationOf req options)).filter (reusable net now) with
  | cons d rest =>
      refine ⟨rest, ?_, rfl, ?_⟩
      · intro e he
        have hmem : e ∈ (pool.idle (destinationOf req options)).filter (reusable net now) := by
          rw [hf]; exact List.mem_cons_of_mem _ he
        exact key_of_idle pool _ e (List.mem_filter.mp hmem).1
      · simp
  | nil =>
      simp only [hf] at hb
      cases hc : net.connect (destinationOf req options) with
      | none => simp [hc] at hb
      | some sock => exact ⟨[], by simp, rfl, by simp⟩

/-- Pushing a connection on the idle list of `key`, in a pool whose idle list
of `key` has just been set, puts it in front of the whole pool. -/
theorem setIdle_push (pool : ConnectionPool) (key : DestinationKey) (l : List Connection)
    (c : Connection) (hl : ∀ d ∈ l, d.destinationKey = key) :
    ((pool.setIdle key l).setIdle key (c :: (pool.setIdle key l).idle key)).idleConnections
      = c :: (pool.setIdle key l).idleConnections := by
  rw [idle_setIdle pool key l hl]
  unfold ConnectionPool.setIdle
  have h1 : l.filter (fun d => !decide (d.destinationKey = key)) = [] := by
    rw [List.filter_eq_nil_iff]
    intro d hd
    simp [hl d hd]
  simp [List.filter_append, List.filter_filter, h1]

/-- The extraction leaves the empty pool empty. -/
theorem extract_from_empty {Ctx : Type} (net : Network Ctx) (now : Nat) (req : Request)
    (options : CurlTransportOptions) :
    (ConnectionPool.empty.ExtractOrCreateCurlConnection net now req options).2
      = ConnectionPool.empty := by
  simp [ConnectionPool.setIdle, ConnectionPool.ExtractOrCreateCurlConnection,
    ConnectionPool.idle, ConnectionPool.empty]
  cases net.connect (destinationOf req options) <;> simp

/-- With keep-alive enabled, a block that returns normally leaves the pool of
the extraction with the borrowed connection, stamped with the time of its
return, in front. -/
theorem sessionScope_pool {Ctx : Type} (net : Network Ctx) (context : Ctx)
    (now later : Nat) (req : Request) (options : CurlTransportOptions)
    (pool : ConnectionPool) (c : Connection) (hk : options.HttpKeepAlive = true)
    (hb : (pool.ExtractOrCreateCurlConnection net now req options).1 = Except.ok c)
    (hok : (sessionScope net context now later req options pool).1 = Except.ok ()) :
    (sessionScope net context now later req options pool).2.idleConnections
      = { c with keepAliveEnabled := true, lastUsedAt := later }
          :: (pool.ExtractOrCreateCurlConnection net now req options).2.idleConnections := by
  obtain ⟨c0, hc0, hpool⟩ := sessionScope_returns net context now later req options pool hok
  have hcc : c0 = c := Except.ok.inj (hc0.symm.trans hb)
  subst hcc
  obtain ⟨hkey, hbroken⟩ := extracted_connection net now req options pool c0 hb
  obtain ⟨rest, hrest, hshape, _⟩ := extract_shape net now req options pool c0 hb
  rw [hpool, hshape]
  have hpush := setIdle_push pool (destinationOf req options) rest
    { c0 with keepAliveEnabled := true, lastUsedAt := later } hrest
  rw [← hpush]
  simp [ConnectionPool.ReleaseConnection, hk, hbroken, hkey]

/-- With keep-alive disabled the connection is not pooled: a block that
returns normally leaves the pool as it was while the session held the
connection. -/
theorem no_keep_alive_discards_connection {Ctx : Type} (net : Network Ctx) (context : Ctx)
    (now later : Nat) (req : Request) (options : CurlTransportOptions)
    (pool : ConnectionPool) (hk : options.HttpKeepAlive = false)
    (hok : (sessionScope net context now later req options pool).1 = Except.ok ()) :
    (sessionScope net context now later req options pool).2
      = (pool.ExtractOrCreateCurlConnection net now req options).2 := by
  obtain ⟨c0, _, hpool⟩ := sessionScope_returns net context now later req options pool hok
  rw [hpool]
  simp [ConnectionPool.ReleaseConnection, hk]

/-- A session whose exchange fails leaves nothing in the pool: the block ends
with the pool as it was while the session held the connection. -/
theorem failed_exchange_discards_connection {Ctx : Type} (net : Network Ctx) (context : Ctx)
    (now later : Nat) (req : Request) (options : CurlTransportOptions)
    (pool : ConnectionPool) (c : Connection) (e : ErrorKind)
    (hb : pool.ExtractOrCreateCurlConnection net now req options
      = (Except.ok c, (pool.ExtractOrCreateCurlConnection net now req options).2))
    (hx : net.exchange context req c.socketHandle = some e) :
    sessionScope net context now later req options pool
      = (Except.error e, (pool.ExtractOrCreateCurlConnection net now req options).2) := by
  unfold sessionScope
  rw [hb]
  simp [CurlSession.Perform, CurlSession.new, hx, CurlSession.destroy,
    ConnectionPool.ReleaseConnection]

/-- The test `globalCleanUp` passes on a process whose pool is empty, whenever
its block returns normally with keep-alive enabled. -/
theorem globalCleanUp_expectation_holds {Ctx : Type} (net : Network Ctx)
    (applicationContext : Ctx) (now later : Nat) (options : CurlTransportOptions)
    (hk : options.HttpKeepAlive = true)
    (hok : (sessionScope net applicationContext now later testRequest options
        ConnectionPool.empty).1 = Except.ok ()) :
    (globalCleanUp net applicationContext now later options ConnectionPool.empty).1
      = Except.ok true := by
  obtain ⟨c, hc, _⟩ := sessionScope_returns net applicationContext now later testRequest
    options ConnectionPool.empty hok
  have hpool := sessionScope_pool net applicationContext now later testRequest options
    ConnectionPool.empty c hk hc hok
  rw [extract_from_empty] at hpool
  unfold globalCleanUp
  rcases hx : sessionScope net applicationContext now later testRequest options
      ConnectionPool.empty with ⟨r, pool2⟩
  rw [hx] at hok hpool
  simp only at hok hpool
  subst hok
  simp [ConnectionPool.ConnectionPoolIndex, hpool, ConnectionPool.empty]

end Curl

namespace Storage

/-- C6: after `Update(k)` the key read by `GetAccountKey()` is `k`, whatever
key the credential held before; after `Update(k1)` and then `Update(k2)` it is
`k2`. -/
theorem update_then_get_reads_new_key (c : StorageSharedKeyCredential) (k k1 k2 : Bytes) :
    (c.Update k).GetAccountKey = k ∧ ((c.Update k1).Update k2).GetAccountKey = k2 :=
  ⟨rfl, rfl⟩

/-- C7: the credential constructed from an account name and an access key has
that very name as `AccountName` and that very key as `GetAccountKey()`. -/
theorem constructed_credential_holds_name_and_key (accountName accountKey : Bytes) :
    (StorageSharedKeyCredential.new accountName accountKey).AccountName = accountName
      ∧ (StorageSharedKeyCredential.new accountName accountKey).GetAccountKey = accountKey :=
  ⟨rfl, rfl⟩

end Storage
